import Mathlib

/-!
Shallow embedding of the `state-license-verifier` repository
(`src/ut_adapter.py`, `src/run_job.py`, `src/models.py`) and proofs about it.

Conventions of the embedding:
* Pure Python helpers become Lean functions over `String` / `List Char`.
* A Python exception that escapes a function is an `Option`/`Except` `none`/`error`.
* The Playwright browser environment is an explicit oracle (`Env`, `Container`)
  recording, for each fallible DOM interaction the code performs, whether it
  raises and what text it yields.
-/

namespace SLV

/-! ## String helpers (Python `re` based utilities of `ut_adapter.py`) -/

/-- Splits a character list into maximal runs of non-whitespace characters.
Models Python `[p for p in re.split(r"\s+", s) if p]`: whitespace runs are
separators, empty pieces are dropped.  `cur` is the (reversed) word being
accumulated. -/
def wordsGo (cur : List Char) : List Char → List (List Char)
  | [] => if cur.isEmpty then [] else [cur.reverse]
  | c :: t =>
    if c.isWhitespace then
      if cur.isEmpty then wordsGo [] t else cur.reverse :: wordsGo [] t
    else wordsGo (c :: cur) t

/-- The whitespace-separated words of a string (see `wordsGo`). -/
def words (s : String) : List String :=
  (wordsGo [] s.toList).map String.mk

/-- Source `_clean` (`ut_adapter.py` line 14): `re.sub(r"\s+", " ", s).strip()`,
i.e. collapse each whitespace run to one space and trim the ends — equivalently,
the words joined by single spaces. -/
def clean (s : String) : String :=
  String.intercalate " " (words s)

/-- Python `str.lower()` restricted to the ASCII range, character by character. -/
def lower (s : String) : String :=
  String.mk (s.toList.map Char.toLower)

/-- Does `n` occur as a prefix of `h`?  (`[]` is a prefix of everything.) -/
def leadMatch : List Char → List Char → Bool
  | [], _ => true
  | _ :: _, [] => false
  | a :: as, b :: bs => a == b && leadMatch as bs

/-- Does `n` occur as a contiguous sublist of `h`?  Models Python `n in h`
on strings (the empty needle always occurs). -/
def subOccurs (n : List Char) : List Char → Bool
  | [] => leadMatch n []
  | c :: t => leadMatch n (c :: t) || subOccurs n t

/-- Python substring test `needle in hay`. -/
def containsSub (needle hay : String) : Bool :=
  subOccurs needle.toList hay.toList

/-! ## `_tokens` (`ut_adapter.py` lines 8–12)

```
parts = [p for p in re.split(r"\s+", name.strip()) if p]
if len(parts) == 1:
    return "", parts[0]
return " ".join(parts[:-1]), parts[-1]
```

When `parts` is empty the final line evaluates `parts[-1]`, which raises
`IndexError`; the embedding returns `none` for that uncaught exception. -/

def tokens (name : String) : Option (String × String) :=
  let parts := words name
  if parts.length == 1 then
    some ("", parts.headD "")
  else
    match parts.getLast? with
    | none => none
    | some lastTok => some (String.intercalate " " parts.dropLast, lastTok)

/-! ## `_parse_date` (`ut_adapter.py` lines 17–24)

`datetime.strptime` with the four formats
`"%m/%d/%Y", "%Y-%m-%d", "%m-%d-%Y", "%Y/%m/%d"` tried in order inside
`try/except`; the first success is returned, otherwise `None`. -/

structure PyDate where
  year : Nat
  month : Nat
  day : Nat
deriving DecidableEq, Repr

/-- Gregorian leap-year rule used by `datetime.date` validation. -/
def isLeap (y : Nat) : Bool :=
  y % 4 == 0 && (y % 100 != 0 || y % 400 == 0)

/-- Days in a month, as validated by `datetime.date`. -/
def daysInMonth (y m : Nat) : Nat :=
  if m == 2 then (if isLeap y then 29 else 28)
  else if m == 4 || m == 6 || m == 9 || m == 11 then 30
  else 31

/-- Numeric value of a digit list (most significant first). -/
def digitsToNat (l : List Char) : Nat :=
  l.foldl (fun a c => a * 10 + (c.toNat - 48)) 0

/-- CPython `_strptime` field regex for `%m`/`%d`: one or two digits within
`[lo, hi]`. -/
def parseField2 (lo hi : Nat) (l : List Char) : Option Nat :=
  if (l.length == 1 || l.length == 2) && l.all Char.isDigit then
    let v := digitsToNat l
    if lo ≤ v && v ≤ hi then some v else none
  else none

/-- CPython `_strptime` field regex for `%Y`: exactly four digits. -/
def parseField4 (l : List Char) : Option Nat :=
  if l.length == 4 && l.all Char.isDigit then some (digitsToNat l) else none

/-- Splits a character list on a separator character, keeping empty pieces
(Python `str.split(sep)` / the separator structure of the strptime regex). -/
def splitGo (sep : Char) (cur : List Char) : List Char → List (List Char)
  | [] => [cur.reverse]
  | c :: t => if c == sep then cur.reverse :: splitGo sep [] t else splitGo sep (c :: cur) t

/-- The two field orders appearing in the format list. -/
inductive FmtOrder where
  | mdY
  | Ymd
deriving DecidableEq, Repr

/-- One strptime format: a field order and a separator character. -/
structure Fmt where
  order : FmtOrder
  sep : Char
deriving DecidableEq, Repr

/-- The source's format list, in order:
`"%m/%d/%Y", "%Y-%m-%d", "%m-%d-%Y", "%Y/%m/%d"`. -/
def dateFormats : List Fmt :=
  [⟨.mdY, '/'⟩, ⟨.Ymd, '-'⟩, ⟨.mdY, '-'⟩, ⟨.Ymd, '/'⟩]

/-- `datetime.date` construction: year ≥ 1 (`MINYEAR`) and the day within the
month's length, else `ValueError` (here `none`). -/
def mkValidDate (y m d : Nat) : Option PyDate :=
  if 1 ≤ y && d ≤ daysInMonth y m then some ⟨y, m, d⟩ else none

/-- `datetime.strptime(s, fmt).date()` for the formats in `dateFormats`:
the string must consist of exactly three separator-delimited fields matching
the field regexes, and the triple must be a valid date. -/
def strptime (fmt : Fmt) (s : String) : Option PyDate :=
  match splitGo fmt.sep [] s.toList with
  | [a, b, c] =>
    match fmt.order with
    | .mdY => do
      let m ← parseField2 1 12 a
      let d ← parseField2 1 31 b
      let y ← parseField4 c
      mkValidDate y m d
    | .Ymd => do
      let y ← parseField4 a
      let m ← parseField2 1 12 b
      let d ← parseField2 1 31 c
      mkValidDate y m d
  | _ => none

/-- The source's `for fmt in (...): try ... except: pass` loop: first format
that parses wins. -/
def tryFormats (s : String) : List Fmt → Option PyDate
  | [] => none
  | f :: rest =>
    match strptime f s with
    | some d => some d
    | none => tryFormats s rest

/-- Source `_parse_date`: cleans the text, then tries the formats in order. -/
def parse_date (s : String) : Option PyDate :=
  tryFormats (clean s) dateFormats

/-! ## `_value_for` (`ut_adapter.py` lines 26–51)

Three extraction strategies, each wrapped in `try/except` and keyed by the
label pattern: (1) a label-bearing node's following sibling, (2) the table
cell adjacent to a matching `td`/`th`, (3) the `dd` paired with a matching
`dt`.  Each strategy either raises (modelled `.fault`) or yields the raw
`inner_text` (modelled `.text raw`); the cleaned text is returned when
non-empty, otherwise the next strategy runs; all failing yields `""`. -/

inductive StratResult where
  | fault
  | text (raw : String)
deriving DecidableEq, Repr

/-- The behaviour of one DOM container (page, frame or popup) under the three
extraction strategies, as a function of the label pattern. -/
structure Container where
  labelSibling : String → StratResult
  tableCell : String → StratResult
  dtDd : String → StratResult

/-- One strategy step of `_value_for`: `none` when the strategy raised or its
cleaned text is empty, else the cleaned text. -/
def stratText (r : StratResult) : Option String :=
  match r with
  | .fault => none
  | .text raw => let t := clean raw; if t = "" then none else some t

/-- Source `_value_for`: the ordered strategy chain, first non-empty cleaned
text wins, `""` when every strategy misses. -/
def value_for (c : Container) (pat : String) : String :=
  match stratText (c.labelSibling pat) with
  | some t => t
  | none =>
    match stratText (c.tableCell pat) with
    | some t => t
    | none =>
      match stratText (c.dtDd pat) with
      | some t => t
      | none => ""

/-! ## `verify_ut` (`ut_adapter.py` lines 190–336) -/

/-- Fixed URL of the search page (`UT_URL`). -/
def UT_URL : String := "https://secure.utah.gov/llv/search/index.html#"

/-- Label patterns passed to `_value_for` at lines 289–292. -/
def licNumPat : String := "License Number|License #|License No"

/-- Label pattern for the status field. -/
def statusPat : String := "Status"

/-- Label pattern for the issue date field. -/
def issueDatePat : String := "Issue Date|Original Date"

/-- Label pattern for the expiry date field. -/
def expiryDatePat : String := "Expiration|Expiry|Expires"

/-- The record dict built at lines 294–303.  `last_verified_at` is the
`datetime.utcnow()` capture instant, modelled as a numeric timestamp. -/
structure Record where
  full_name : String
  state : String
  license_number : String
  status : Option String
  issue_date : Option PyDate
  expiry_date : Option PyDate
  source_uri : String
  last_verified_at : Nat
deriving DecidableEq, Repr

/-- Lines 289–303: extract the four fields from the detail container and build
the record.  `lic_no or "UNKNOWN"` maps `""` to the sentinel; `status or None`
maps `""` to `none`; the dates go through `_parse_date`. -/
def mkRecord (fullName : String) (now : Nat) (detail : Container) : Record :=
  let lic := value_for detail licNumPat
  let st := value_for detail statusPat
  { full_name := fullName
    state := "UT"
    license_number := if lic = "" then "UNKNOWN" else lic
    status := if st = "" then none else some st
    issue_date := parse_date (value_for detail issueDatePat)
    expiry_date := parse_date (value_for detail expiryDatePat)
    source_uri := UT_URL
    last_verified_at := now }

/-- One element of the filtered result-candidate list (line 263): the outcome
of reading its `inner_text` (a raise here propagates to the outer handler),
and the popup container the click opens, when one opens (`maybe_popup.value`
at line 283; `none` means the detail stays in the search frame). -/
structure Candidate where
  rawText : StratResult
  popup : Option Container

/-- The browser-environment oracle for one `verify_ut` call: whether each
session-acquisition step succeeds, the resolved search container, the result
of the n-th `submit_once` call, and the candidate list each scan attempt
sees. -/
structure Env where
  pwStartOk : Bool
  launchOk : Bool
  ctxOk : Bool
  pageOk : Bool
  gotoOk : Bool
  frame : Container
  submitOk : Nat → Bool
  attempts : Nat → List Candidate
  now : Nat

/-- Lines 272–274: `ok_last`/`ok_first` — case-insensitive substring tests,
each skipped when the corresponding token is empty. -/
def candMatches (first lastTok txt : String) : Bool :=
  (if lastTok = "" then true else containsSub (lower lastTok) (lower txt)) &&
  (if first = "" then true else containsSub (lower first) (lower txt))

/-- Uncaught Python exceptions `verify_ut` can propagate. -/
inductive PyErr where
  | indexError
  | playwrightStartError
deriving DecidableEq, Repr

/-- Outcome of one inner-loop scan over the candidate list (lines 266–306):
a clicked candidate produced a record, a raised `inner_text` aborted to the
outer handler, or no candidate was accepted. -/
inductive ScanStep where
  | found (r : Record)
  | abortFault
  | noMatch
deriving Repr

/-- Lines 268–306: walk the candidate list in order; empty cleaned text is
skipped, the first text matching both tokens is clicked and its detail
extracted; a raise while reading text escapes to the outer handler. -/
def scanList (first lastTok fullName : String) (now : Nat) (frame : Container) :
    List Candidate → ScanStep
  | [] => .noMatch
  | c :: rest =>
    match c.rawText with
    | .fault => .abortFault
    | .text raw =>
      if clean raw = "" then scanList first lastTok fullName now frame rest
      else if candMatches first lastTok (clean raw) then
        .found (mkRecord fullName now (c.popup.getD frame))
      else scanList first lastTok fullName now frame rest

/-- One scan attempt: the loop at line 268 visits at most `min(n, 40)`
candidates. -/
def scanAttempt (first lastTok fullName : String) (now : Nat) (frame : Container)
    (cands : List Candidate) : ScanStep :=
  scanList first lastTok fullName now frame (cands.take 40)

/-- Result of the `for attempt in range(3)` loop (lines 262–320): the records
returned, how many times the search was resubmitted at line 317, and how many
scan attempts ran. -/
structure LoopRes where
  recs : List Record
  resubmits : Nat
  attemptsRun : Nat
deriving Repr

/-- The retry loop, driven by remaining `fuel` (3 at entry) and the current
`attempt` index.  A found candidate returns its record; a text-read fault
returns `[]` through the outer handler; otherwise, after attempt 0 with no
confirmed submission signal, the search is resubmitted once (line 316). -/
def loopGo (env : Env) (first lastTok fullName : String) (didSubmit : Bool) :
    Nat → Nat → Nat → LoopRes
  | 0, attempt, resubs => ⟨[], resubs, attempt⟩
  | fuel + 1, attempt, resubs =>
    match scanAttempt first lastTok fullName env.now env.frame (env.attempts attempt) with
    | .found r => ⟨[r], resubs, attempt + 1⟩
    | .abortFault => ⟨[], resubs, attempt + 1⟩
    | .noMatch =>
      loopGo env first lastTok fullName didSubmit fuel (attempt + 1)
        (if attempt == 0 && !didSubmit then resubs + 1 else resubs)

/-- What one `verify_ut` call did: its return value (or the uncaught
exception), which session resources were acquired, whether their teardown in
the `finally` block ran, how many `submit_once` calls were made, and how many
scan attempts ran. -/
structure Outcome where
  result : Except PyErr (List Record)
  browserAcquired : Bool
  ctxAcquired : Bool
  browserClosed : Bool
  ctxClosed : Bool
  submitCalls : Nat
  scanAttempts : Nat

/-- Source `verify_ut`.  `_tokens` runs before the `with sync_playwright()`
block, so its `IndexError` propagates; a failure entering that block also
precedes the `try`.  Inside the `try`, a failed launch / context / page /
goto is caught by the outer handlers and yields `[]`; the `finally` block
closes whatever was acquired on every path. -/
def verifyUt (fullName : String) (env : Env) : Outcome :=
  match tokens fullName with
  | none => ⟨.error .indexError, false, false, false, false, 0, 0⟩
  | some (first, lastTok) =>
    if env.pwStartOk then
      if env.launchOk then
        if env.ctxOk then
          if env.pageOk then
            if env.gotoOk then
              let didSubmit := env.submitOk 0
              let lr := loopGo env first lastTok fullName didSubmit 3 0 0
              ⟨.ok lr.recs, true, true, true, true, 1 + lr.resubmits, lr.attemptsRun⟩
            else ⟨.ok [], true, true, true, true, 0, 0⟩
          else ⟨.ok [], true, true, true, true, 0, 0⟩
        else ⟨.ok [], true, false, true, false, 0, 0⟩
      else ⟨.ok [], false, false, false, false, 0, 0⟩
    else ⟨.error .playwrightStartError, false, false, false, false, 0, 0⟩

/-! ## Persistence model (`src/models.py`, `src/run_job.py`)

A `licenses` row and the in-memory image of the table.  `run_ut_job` selects
by `(state, license_number)` with `scalar_one_or_none` (which raises on more
than one match, modelled `none`), updates the five mutable fields on a hit,
inserts a full new row on a miss, and commits per record. -/

structure Row where
  id : Nat
  full_name : String
  state : String
  license_number : String
  status : Option String
  issue_date : Option PyDate
  expiry_date : Option PyDate
  source_uri : Option String
  last_verified_at : Option Nat
deriving DecidableEq, Repr

/-- The licenses table plus the surrogate-key generator. -/
structure Store where
  rows : List Row
  nextId : Nat
deriving DecidableEq, Repr

/-- The `WHERE state = ... AND license_number = ...` filter of the select. -/
def rowMatches (st lic : String) (r : Row) : Bool :=
  r.state == st && r.license_number == lic

/-- `session.add(License(**rec))`: a brand-new row carrying every record
field, with a fresh surrogate id. -/
def insertRow (store : Store) (rec : Record) : Store :=
  { rows := store.rows ++
      [{ id := store.nextId
         full_name := rec.full_name
         state := rec.state
         license_number := rec.license_number
         status := rec.status
         issue_date := rec.issue_date
         expiry_date := rec.expiry_date
         source_uri := some rec.source_uri
         last_verified_at := some rec.last_verified_at }]
    nextId := store.nextId + 1 }

/-- The update branch (`run_job.py` lines 28–32): only `full_name`, `status`,
`issue_date`, `expiry_date`, `source_uri` are assigned on the existing row. -/
def updateRow (rec : Record) (target : Row) (r : Row) : Row :=
  if r.id = target.id then
    { r with
      full_name := rec.full_name
      status := rec.status
      issue_date := rec.issue_date
      expiry_date := rec.expiry_date
      source_uri := some rec.source_uri }
  else r

/-- One upsert of `run_ut_job`: `scalar_one_or_none` on the key filter —
no match inserts, one match updates, several matches raise
(`MultipleResultsFound`, modelled `none`). -/
def upsert (store : Store) (rec : Record) : Option Store :=
  match store.rows.filter (rowMatches rec.state rec.license_number) with
  | [] => some (insertRow store rec)
  | [target] => some { store with rows := store.rows.map (updateRow rec target) }
  | _ => none

/-- The per-record loop of `run_ut_job` over the records one name's
verification returned: upserts in order, committing each. -/
def runJobRecords (store : Store) : List Record → Option Store
  | [] => some store
  | rec :: rest =>
    match upsert store rec with
    | some s1 => runJobRecords s1 rest
    | none => none

/-! ## Concrete fixtures used to instantiate the theorems -/

/-- A container on which every extraction strategy raises: every field
extraction yields `""`. -/
def emptyContainer : Container :=
  ⟨fun _ => .fault, fun _ => .fault, fun _ => .fault⟩

/-- A healthy environment whose result listing stays empty. -/
def anyEnv : Env :=
  { pwStartOk := true, launchOk := true, ctxOk := true, pageOk := true, gotoOk := true
    frame := emptyContainer, submitOk := fun _ => true, attempts := fun _ => [], now := 0 }

/-- Environment whose first scan attempt offers one matching candidate whose
detail popup extracts nothing for any label. -/
def env3 : Env :=
  { anyEnv with
    attempts := fun i => if i = 0 then [⟨.text "John Smith", some emptyContainer⟩] else [] }

/-- A detail container answering every label pattern through the
label-sibling strategy. -/
def fullContainer : Container :=
  { labelSibling := fun pat =>
      if pat = licNumPat then .text "1234567-1205"
      else if pat = statusPat then .text "Active"
      else if pat = issueDatePat then .text "05/01/2015"
      else .text "01/31/2026"
    tableCell := fun _ => .fault
    dtDd := fun _ => .fault }

/-- Environment whose first scan attempt offers one matching candidate with a
fully populated detail popup. -/
def envC6 : Env :=
  { anyEnv with
    attempts := fun i => if i = 0 then [⟨.text "Gregory Osmond", some fullContainer⟩] else [] }

/-- The record `verifyUt` extracts under `envC6`. -/
def recC6 : Record :=
  { full_name := "Gregory Osmond", state := "UT", license_number := "1234567-1205"
    status := some "Active", issue_date := some ⟨2015, 5, 1⟩
    expiry_date := some ⟨2026, 1, 31⟩, source_uri := UT_URL, last_verified_at := 0 }

/-- Environment for the resubmission analysis: neither submit path confirms,
and the first attempt sees one candidate containing only the last-name
token. -/
def env8 : Env :=
  { anyEnv with
    submitOk := fun _ => false
    attempts := fun i => if i = 0 then [⟨.text "Smith Jones", none⟩] else [] }

/-- A container whose first two strategies both produce non-empty text. -/
def c5Container : Container :=
  ⟨fun _ => .text " Active ", fun _ => .text "Expired", fun _ => .fault⟩

/-- A record as the job runner receives it (spec Scenario A shape). -/
def recA : Record :=
  { full_name := "Gregory Osmond", state := "UT", license_number := "1234567-1205"
    status := some "Active", issue_date := some ⟨2015, 5, 1⟩
    expiry_date := some ⟨2026, 1, 31⟩, source_uri := UT_URL, last_verified_at := 10 }

/-- Same natural key as `recA`, different status, later capture. -/
def recB : Record :=
  { recA with status := some "Inactive", last_verified_at := 20 }

/-- An empty licenses table. -/
def store0 : Store := ⟨[], 0⟩

/-- A stored row holding `recA`'s key, as `insertRow` would create it. -/
def store1row : Row :=
  { id := 0, full_name := "Gregory Osmond", state := "UT"
    license_number := "1234567-1205", status := some "Active"
    issue_date := some ⟨2015, 5, 1⟩, expiry_date := some ⟨2026, 1, 31⟩
    source_uri := some UT_URL, last_verified_at := some 10 }

/-- A one-row table holding `store1row`. -/
def store1 : Store := ⟨[store1row], 1⟩

/-! ## Helper lemmas -/

/-- The format loop returns `none` exactly when every format fails. -/
theorem tryFormats_eq_none_iff (s : String) (l : List Fmt) :
    tryFormats s l = none ↔ ∀ f ∈ l, strptime f s = none := by
  induction l with
  | nil => simp [tryFormats]
  | cons f rest ih =>
    cases hf : strptime f s with
    | some d => simp [tryFormats, hf]
    | none => simp [tryFormats, hf, ih]

/-- A successful format loop returns the first format that parses. -/
theorem tryFormats_some_first (s : String) (l : List Fmt) (d : PyDate)
    (h : tryFormats s l = some d) :
    ∃ i : Fin l.length, strptime (l.get i) s = some d ∧
      ∀ j : Fin l.length, j.val < i.val → strptime (l.get j) s = none := by
  induction l with
  | nil => simp [tryFormats] at h
  | cons f rest ih =>
    cases hf : strptime f s with
    | some d0 =>
      simp only [tryFormats, hf] at h
      refine ⟨⟨0, by simp⟩, ?_, ?_⟩
      · simpa [hf] using h
      · intro j hj; exact absurd hj (Nat.not_lt_zero _)
    | none =>
      simp only [tryFormats, hf] at h
      obtain ⟨i, hi, hj⟩ := ih h
      refine ⟨i.succ, by simpa using hi, ?_⟩
      rintro ⟨jv, hjv⟩ hlt
      cases jv with
      | zero => simpa using hf
      | succ k =>
        have hk : k < rest.length := by simpa using hjv
        have := hj ⟨k, hk⟩ (by simpa using hlt)
        simpa using this

/-! ## Claim theorems -/

/-- C1 (code bug): `verify_ut` is claimed never to let an exception propagate
to its caller, for every input including the empty and whitespace-only
strings.  In the code, `_tokens` runs at line 191, before the `try` block:
on an empty or whitespace-only name, `parts` is empty and `parts[-1]` raises
`IndexError`, which propagates uncaught out of `verify_ut`. -/
theorem verify_ut_raises_on_empty_input :
    (verifyUt "" anyEnv).result = .error .indexError ∧
    (verifyUt " \t " anyEnv).result = .error .indexError := ⟨rfl, rfl⟩

/-- C2 (code bug): the tokenizer maps multi-token input to (all-but-last
joined by single spaces, final token) and single-token input to an empty
first component — but an empty or whitespace-only input does not yield two
empty components: `parts[-1]` on the empty token list raises `IndexError`
(modelled `none`). -/
theorem tokens_spec_and_empty_input_bug :
    tokens "Mary Anne Smith" = some ("Mary Anne", "Smith") ∧
    tokens "  John   Smith " = some ("John", "Smith") ∧
    tokens "Cher" = some ("", "Cher") ∧
    tokens "" = none ∧
    tokens " \t " = none := by decide

/-- C4 (confirmed): `_parse_date` tries the fixed ordered format list and
returns the first successful parse; text matched by no format (e.g. `"N/A"`)
yields `none` — never an exception, never a default date. -/
theorem parse_date_ordered_first_match :
    parse_date "N/A" = none ∧
    (∀ s : String, (∀ f ∈ dateFormats, strptime f (clean s) = none) → parse_date s = none) ∧
    (∀ (s : String) (d : PyDate), parse_date s = some d →
      ∃ i : Fin dateFormats.length, strptime (dateFormats.get i) (clean s) = some d ∧
        ∀ j : Fin dateFormats.length, j.val < i.val →
          strptime (dateFormats.get j) (clean s) = none) := by
  refine ⟨by decide, ?_, ?_⟩
  · intro s h
    exact (tryFormats_eq_none_iff (clean s) dateFormats).mpr h
  · intro s d h
    exact tryFormats_some_first (clean s) dateFormats d h

/-- Witness for C4: `"2015-05-01"` parses, and the parse is produced by the
first format in the list that matches it. -/
theorem parse_date_ordered_first_match_witness :
    ∃ i : Fin dateFormats.length,
      strptime (dateFormats.get i) (clean "2015-05-01") = some ⟨2015, 5, 1⟩ ∧
      ∀ j : Fin dateFormats.length, j.val < i.val →
        strptime (dateFormats.get j) (clean "2015-05-01") = none :=
  parse_date_ordered_first_match.2.2 "2015-05-01" ⟨2015, 5, 1⟩ (by decide)

/-- C5 (confirmed): when the label-sibling strategy and the table-cell
strategy would both yield a non-empty value for the same label pattern,
`_value_for` returns the label-sibling value. -/
theorem value_for_label_sibling_wins
    (c : Container) (pat raw1 raw2 : String)
    (h1 : c.labelSibling pat = .text raw1) (h1n : clean raw1 ≠ "")
    (h2 : c.tableCell pat = .text raw2) (h2n : clean raw2 ≠ "") :
    value_for c pat = clean raw1 := by
  simp [value_for, stratText, h1, h1n]

/-- Witness for C5: a container whose first strategy reads `" Active "` and
whose second reads `"Expired"` extracts the cleaned first value. -/
theorem value_for_label_sibling_wins_witness :
    value_for c5Container statusPat = clean " Active " :=
  value_for_label_sibling_wins c5Container statusPat " Active " "Expired"
    rfl (by decide) rfl (by decide)

/-- The empty string parses under no date format. -/
theorem parse_date_empty : parse_date "" = none := by decide

/-- C3 counterexample: under `env3` the clicked candidate's detail yields
empty text for all four fields, yet `verify_ut` returns one record (license
number `"UNKNOWN"`), not zero records. -/
theorem verify_ut_empty_detail_counterexample :
    (value_for emptyContainer licNumPat = "" ∧
     value_for emptyContainer statusPat = "" ∧
     value_for emptyContainer issueDatePat = "" ∧
     value_for emptyContainer expiryDatePat = "") ∧
    (verifyUt "John Smith" env3).result =
      .ok [{ full_name := "John Smith", state := "UT", license_number := "UNKNOWN",
             status := none, issue_date := none, expiry_date := none,
             source_uri := UT_URL, last_verified_at := 0 }] :=
  ⟨⟨rfl, rfl, rfl, rfl⟩, rfl⟩

/-- C3 (amended): when the clicked candidate's detail yields empty text for
all four fields, `verify_ut` does not discard it — it still emits exactly one
record, with the `"UNKNOWN"` license sentinel and absent status and dates. -/
theorem verify_ut_empty_detail_still_emits_record
    (env : Env) (name first lastTok txt : String) (d : Container)
    (htok : tokens name = some (first, lastTok))
    (hpw : env.pwStartOk = true) (hl : env.launchOk = true) (hc : env.ctxOk = true)
    (hp : env.pageOk = true) (hg : env.gotoOk = true)
    (hatt : env.attempts 0 = [⟨.text txt, some d⟩])
    (htxt : clean txt ≠ "") (hmatch : candMatches first lastTok (clean txt) = true)
    (h1 : value_for d licNumPat = "") (h2 : value_for d statusPat = "")
    (h3 : value_for d issueDatePat = "") (h4 : value_for d expiryDatePat = "") :
    (verifyUt name env).result =
      .ok [{ full_name := name, state := "UT", license_number := "UNKNOWN",
             status := none, issue_date := none, expiry_date := none,
             source_uri := UT_URL, last_verified_at := env.now }] := by
  have hscan : scanAttempt first lastTok name env.now env.frame (env.attempts 0) =
      .found (mkRecord name env.now d) := by
    rw [hatt]
    simp [scanAttempt, scanList, htxt, hmatch]
  have hrec : mkRecord name env.now d =
      { full_name := name, state := "UT", license_number := "UNKNOWN",
        status := none, issue_date := none, expiry_date := none,
        source_uri := UT_URL, last_verified_at := env.now } := by
    simp [mkRecord, h1, h2, h3, h4, parse_date_empty]
  simp [verifyUt, htok, hpw, hl, hc, hp, hg, loopGo, hscan, hrec]

/-- Witness for C3's amended claim, instantiated at `env3`. -/
theorem verify_ut_empty_detail_still_emits_record_witness :
    (verifyUt "John Smith" env3).result =
      .ok [{ full_name := "John Smith", state := "UT", license_number := "UNKNOWN",
             status := none, issue_date := none, expiry_date := none,
             source_uri := UT_URL, last_verified_at := env3.now }] :=
  verify_ut_empty_detail_still_emits_record env3 "John Smith" "John" "Smith" "John Smith"
    emptyContainer rfl rfl rfl rfl rfl rfl rfl (by decide) (by decide) rfl rfl rfl rfl

/-- Every record a successful candidate scan produces is `mkRecord` of some
detail container. -/
theorem scanList_found_shape (first lastTok fullName : String) (now : Nat) (frame : Container) :
    ∀ (cands : List Candidate) (r : Record),
      scanList first lastTok fullName now frame cands = .found r →
      ∃ d : Container, r = mkRecord fullName now d := by
  intro cands
  induction cands with
  | nil => intro r h; simp [scanList] at h
  | cons c rest ih =>
    intro r h
    cases hc : c.rawText with
    | fault => simp [scanList, hc] at h
    | text raw =>
      simp only [scanList, hc] at h
      by_cases ht : clean raw = ""
      · rw [if_pos ht] at h
        exact ih r h
      · rw [if_neg ht] at h
        by_cases hm : candMatches first lastTok (clean raw) = true
        · simp only [hm, if_true] at h
          cases h
          exact ⟨c.popup.getD frame, rfl⟩
        · simp only [hm, if_false] at h
          exact ih r h

/-- Every record the retry loop returns is `mkRecord` of some detail
container. -/
theorem loopGo_recs_shape (env : Env) (first lastTok fullName : String) (didSubmit : Bool) :
    ∀ (fuel attempt resubs : Nat) (r : Record),
      r ∈ (loopGo env first lastTok fullName didSubmit fuel attempt resubs).recs →
      ∃ d : Container, r = mkRecord fullName env.now d := by
  intro fuel
  induction fuel with
  | zero => intro attempt resubs r h; simp [loopGo] at h
  | succ fuel ih =>
    intro attempt resubs r h
    cases hs : scanAttempt first lastTok fullName env.now env.frame (env.attempts attempt) with
    | found r0 =>
      simp only [loopGo, hs, List.mem_singleton] at h
      subst h
      exact scanList_found_shape first lastTok fullName env.now env.frame
        ((env.attempts attempt).take 40) r hs
    | abortFault => simp [loopGo, hs] at h
    | noMatch =>
      simp only [loopGo, hs] at h
      exact ih _ _ r h

/-- C6 (confirmed): in every record `verify_ut` emits, `license_number` is
the extracted non-empty text when extraction succeeded and the `"UNKNOWN"`
sentinel when the extracted text was empty — never absent; `status` is the
extracted text only when non-empty and absent otherwise, and both dates are
the parse of their extracted text (absent when unparsed), never a default. -/
theorem verify_ut_record_field_shape (env : Env) (name : String)
    (l : List Record) (rec : Record)
    (hres : (verifyUt name env).result = Except.ok l) (hmem : rec ∈ l) :
    rec.license_number ≠ "" ∧
    ∃ d : Container,
      rec.license_number =
        (if value_for d licNumPat = "" then "UNKNOWN" else value_for d licNumPat) ∧
      rec.status =
        (if value_for d statusPat = "" then none else some (value_for d statusPat)) ∧
      rec.issue_date = parse_date (value_for d issueDatePat) ∧
      rec.expiry_date = parse_date (value_for d expiryDatePat) := by
  have hd : ∃ d : Container, rec = mkRecord name env.now d := by
    cases htok : tokens name with
    | none => simp [verifyUt, htok] at hres
    | some p =>
      obtain ⟨first, lastTok⟩ := p
      cases hpw : env.pwStartOk <;> cases hl : env.launchOk <;> cases hc : env.ctxOk <;>
        cases hp : env.pageOk <;> cases hg : env.gotoOk <;>
        simp only [verifyUt, htok, hpw, hl, hc, hp, hg, Bool.false_eq_true, if_false,
          if_true, Except.ok.injEq, reduceCtorEq] at hres <;>
        first
        | exact absurd hmem (by rw [← hres]; simp)
        | exact loopGo_recs_shape env first lastTok name (env.submitOk 0) 3 0 0 rec
            (by rw [hres]; exact hmem)
  obtain ⟨d, rfl⟩ := hd
  refine ⟨?_, d, by simp [mkRecord], by simp [mkRecord], by simp [mkRecord], by simp [mkRecord]⟩
  by_cases hlic : value_for d licNumPat = "" <;> simp [mkRecord, hlic]

/-- Witness for C6: under `envC6` the call returns `recC6`, whose fields have
the stated shape. -/
theorem verify_ut_record_field_shape_witness :
    recC6.license_number ≠ "" ∧
    ∃ d : Container,
      recC6.license_number =
        (if value_for d licNumPat = "" then "UNKNOWN" else value_for d licNumPat) ∧
      recC6.status =
        (if value_for d statusPat = "" then none else some (value_for d statusPat)) ∧
      recC6.issue_date = parse_date (value_for d issueDatePat) ∧
      recC6.expiry_date = parse_date (value_for d expiryDatePat) :=
  verify_ut_record_field_shape envC6 "Gregory Osmond" [recC6] recC6 (by rfl) (by simp)

/-- C7 (confirmed): on every exit path on which the browser (resp. its
context) was acquired, the `finally` block's teardown of that resource runs
before `verify_ut` returns. -/
theorem verify_ut_teardown_on_every_path (name : String) (env : Env) :
    ((verifyUt name env).browserAcquired = true → (verifyUt name env).browserClosed = true) ∧
    ((verifyUt name env).ctxAcquired = true → (verifyUt name env).ctxClosed = true) := by
  cases htok : tokens name with
  | none => simp [verifyUt, htok]
  | some p =>
    obtain ⟨first, lastTok⟩ := p
    cases hpw : env.pwStartOk <;> cases hl : env.launchOk <;> cases hc : env.ctxOk <;>
      cases hp : env.pageOk <;> cases hg : env.gotoOk <;>
      simp [verifyUt, htok, hpw, hl, hc, hp, hg]

/-- Witness for C7: a run that acquires both resources closes both. -/
theorem verify_ut_teardown_witness :
    (verifyUt "John Smith" anyEnv).browserClosed = true ∧
    (verifyUt "John Smith" anyEnv).ctxClosed = true :=
  ⟨(verify_ut_teardown_on_every_path "John Smith" anyEnv).1 (by rfl),
   (verify_ut_teardown_on_every_path "John Smith" anyEnv).2 (by rfl)⟩

/-- Behaviour of the three-attempt retry loop: it runs at most three scan
attempts, resubmits at most once, resubmits exactly when the first attempt
accepted no candidate and no submission signal was confirmed, and returns no
records when every attempt accepts no candidate. -/
theorem loopGo_spec (env : Env) (first lastTok name : String) (ds : Bool) :
    (loopGo env first lastTok name ds 3 0 0).attemptsRun ≤ 3 ∧
    (loopGo env first lastTok name ds 3 0 0).resubmits ≤ 1 ∧
    ((loopGo env first lastTok name ds 3 0 0).resubmits = 1 ↔
      (scanAttempt first lastTok name env.now env.frame (env.attempts 0) = .noMatch ∧
        ds = false)) ∧
    ((∀ i, i < 3 →
        scanAttempt first lastTok name env.now env.frame (env.attempts i) = .noMatch) →
      (loopGo env first lastTok name ds 3 0 0).recs = []) := by
  cases h0 : scanAttempt first lastTok name env.now env.frame (env.attempts 0) with
  | found r =>
    have e : loopGo env first lastTok name ds 3 0 0 = ⟨[r], 0, 1⟩ := by
      simp [loopGo, h0]
    exact ⟨by simp [e], by simp [e], by simp [e, h0], fun hall =>
      absurd (hall 0 (by omega)) (by simp [h0])⟩
  | abortFault =>
    have e : loopGo env first lastTok name ds 3 0 0 = ⟨[], 0, 1⟩ := by
      simp [loopGo, h0]
    exact ⟨by simp [e], by simp [e], by simp [e, h0], fun hall =>
      absurd (hall 0 (by omega)) (by simp [h0])⟩
  | noMatch =>
    cases ds with
    | true =>
      cases h1 : scanAttempt first lastTok name env.now env.frame (env.attempts 1) with
      | found r =>
        have e : loopGo env first lastTok name true 3 0 0 = ⟨[r], 0, 2⟩ := by
          simp [loopGo, h0, h1]
        exact ⟨by simp [e], by simp [e], by simp [e, h0], fun hall =>
          absurd (hall 1 (by omega)) (by simp [h1])⟩
      | abortFault =>
        have e : loopGo env first lastTok name true 3 0 0 = ⟨[], 0, 2⟩ := by
          simp [loopGo, h0, h1]
        exact ⟨by simp [e], by simp [e], by simp [e, h0], fun hall =>
          absurd (hall 1 (by omega)) (by simp [h1])⟩
      | noMatch =>
        cases h2 : scanAttempt first lastTok name env.now env.frame (env.attempts 2) with
        | found r =>
          have e : loopGo env first lastTok name true 3 0 0 = ⟨[r], 0, 3⟩ := by
            simp [loopGo, h0, h1, h2]
          exact ⟨by simp [e], by simp [e], by simp [e, h0], fun hall =>
            absurd (hall 2 (by omega)) (by simp [h2])⟩
        | abortFault =>
          have e : loopGo env first lastTok name true 3 0 0 = ⟨[], 0, 3⟩ := by
            simp [loopGo, h0, h1, h2]
          exact ⟨by simp [e], by simp [e], by simp [e, h0], fun hall =>
            absurd (hall 2 (by omega)) (by simp [h2])⟩
        | noMatch =>
          have e : loopGo env first lastTok name true 3 0 0 = ⟨[], 0, 3⟩ := by
            simp [loopGo, h0, h1, h2]
          exact ⟨by simp [e], by simp [e], by simp [e, h0], fun _ => by simp [e]⟩
    | false =>
      cases h1 : scanAttempt first lastTok name env.now env.frame (env.attempts 1) with
      | found r =>
        have e : loopGo env first lastTok name false 3 0 0 = ⟨[r], 1, 2⟩ := by
          simp [loopGo, h0, h1]
        exact ⟨by simp [e], by simp [e], by simp [e, h0], fun hall =>
          absurd (hall 1 (by omega)) (by simp [h1])⟩
      | abortFault =>
        have e : loopGo env first lastTok name false 3 0 0 = ⟨[], 1, 2⟩ := by
          simp [loopGo, h0, h1]
        exact ⟨by simp [e], by simp [e], by simp [e, h0], fun hall =>
          absurd (hall 1 (by omega)) (by simp [h1])⟩
      | noMatch =>
        cases h2 : scanAttempt first lastTok name env.now env.frame (env.attempts 2) with
        | found r =>
          have e : loopGo env first lastTok name false 3 0 0 = ⟨[r], 1, 3⟩ := by
            simp [loopGo, h0, h1, h2]
          exact ⟨by simp [e], by simp [e], by simp [e, h0], fun hall =>
            absurd (hall 2 (by omega)) (by simp [h2])⟩
        | abortFault =>
          have e : loopGo env first lastTok name false 3 0 0 = ⟨[], 1, 3⟩ := by
            simp [loopGo, h0, h1, h2]
          exact ⟨by simp [e], by simp [e], by simp [e, h0], fun hall =>
            absurd (hall 2 (by omega)) (by simp [h2])⟩
        | noMatch =>
          have e : loopGo env first lastTok name false 3 0 0 = ⟨[], 1, 3⟩ := by
            simp [loopGo, h0, h1, h2]
          exact ⟨by simp [e], by simp [e], by simp [e, h0], fun _ => by simp [e]⟩

/-- C8 counterexample: under `env8` no submission signal was confirmed and the
first attempt sees one candidate (not zero) — the candidate contains only the
last-name token, so it is not accepted — and the code still resubmits (two
`submit_once` calls), refuting "resubmits exactly when the first attempt
yields zero candidates". -/
theorem verify_ut_resubmit_counterexample :
    (verifyUt "John Smith" env8).submitCalls = 2 ∧
    (env8.attempts 0).length = 1 ∧
    env8.submitOk 0 = false :=
  ⟨rfl, rfl, rfl⟩

/-- C8 (amended): the loop runs at most three scan attempts; the search is
resubmitted at most once, exactly when the first attempt accepts no
candidate — whether because it saw zero candidates or because none matched
both name tokens — and no confirmed submission signal was produced; and a
run whose every attempt accepts no candidate returns the empty list, not an
error. -/
theorem verify_ut_retry_and_resubmit_policy
    (name first lastTok : String) (env : Env)
    (htok : tokens name = some (first, lastTok))
    (hpw : env.pwStartOk = true) (hl : env.launchOk = true) (hc : env.ctxOk = true)
    (hp : env.pageOk = true) (hg : env.gotoOk = true) :
    (verifyUt name env).scanAttempts ≤ 3 ∧
    (verifyUt name env).submitCalls ≤ 2 ∧
    ((verifyUt name env).submitCalls = 2 ↔
      (scanAttempt first lastTok name env.now env.frame (env.attempts 0) = .noMatch ∧
        env.submitOk 0 = false)) ∧
    ((∀ i, i < 3 →
        scanAttempt first lastTok name env.now env.frame (env.attempts i) = .noMatch) →
      (verifyUt name env).result = .ok []) := by
  have hv : verifyUt name env =
      { result := .ok (loopGo env first lastTok name (env.submitOk 0) 3 0 0).recs,
        browserAcquired := true, ctxAcquired := true, browserClosed := true,
        ctxClosed := true,
        submitCalls := 1 + (loopGo env first lastTok name (env.submitOk 0) 3 0 0).resubmits,
        scanAttempts := (loopGo env first lastTok name (env.submitOk 0) 3 0 0).attemptsRun } := by
    simp [verifyUt, htok, hpw, hl, hc, hp, hg]
  obtain ⟨ha, hr, hiff, hexh⟩ := loopGo_spec env first lastTok name (env.submitOk 0)
  rw [hv]
  refine ⟨ha, ?_, ?_, ?_⟩
  · show 1 + (loopGo env first lastTok name (env.submitOk 0) 3 0 0).resubmits ≤ 2
    omega
  · show 1 + (loopGo env first lastTok name (env.submitOk 0) 3 0 0).resubmits = 2 ↔ _
    constructor
    · intro h2
      exact hiff.mp (by omega)
    · intro hrhs
      have := hiff.mpr hrhs
      omega
  · intro hall
    show Except.ok _ = Except.ok ([] : List Record)
    rw [hexh hall]

/-- Witness for C8's amended claim, instantiated at `env8`. -/
theorem verify_ut_retry_and_resubmit_policy_witness :
    (verifyUt "John Smith" env8).scanAttempts ≤ 3 ∧
    (verifyUt "John Smith" env8).submitCalls ≤ 2 ∧
    ((verifyUt "John Smith" env8).submitCalls = 2 ↔
      (scanAttempt "John" "Smith" "John Smith" env8.now env8.frame (env8.attempts 0) =
        .noMatch ∧ env8.submitOk 0 = false)) ∧
    ((∀ i, i < 3 →
        scanAttempt "John" "Smith" "John Smith" env8.now env8.frame (env8.attempts i) =
          .noMatch) →
      (verifyUt "John Smith" env8).result = .ok []) :=
  verify_ut_retry_and_resubmit_policy "John Smith" "John" "Smith" env8
    rfl rfl rfl rfl rfl rfl

/-- Updating a row never changes the key columns, so the key filter commutes
with the update map. -/
theorem rowMatches_updateRow (st lic : String) (rec : Record) (target r : Row) :
    rowMatches st lic (updateRow rec target r) = rowMatches st lic r := by
  unfold updateRow
  split <;> rfl

/-- The key filter of an updated table is the update of the key filter. -/
theorem filter_map_updateRow (rows : List Row) (st lic : String) (rec : Record) (target : Row) :
    (rows.map (updateRow rec target)).filter (rowMatches st lic) =
      (rows.filter (rowMatches st lic)).map (updateRow rec target) := by
  induction rows with
  | nil => rfl
  | cons r rest ih =>
    simp only [List.map_cons, List.filter_cons, rowMatches_updateRow]
    cases h : rowMatches st lic r <;> simp [h, ih]

/-- One upsert on a table with at most one key match leaves exactly one row
under that key, carrying the record's status. -/
theorem upsert_key_status (store : Store) (rec : Record)
    (hlen : (store.rows.filter (rowMatches rec.state rec.license_number)).length ≤ 1) :
    ∃ s1, upsert store rec = some s1 ∧
      ∃ row, s1.rows.filter (rowMatches rec.state rec.license_number) = [row] ∧
        row.status = rec.status := by
  cases hf : store.rows.filter (rowMatches rec.state rec.license_number) with
  | nil =>
    refine ⟨insertRow store rec, by simp [upsert, hf],
      ⟨{ id := store.nextId, full_name := rec.full_name, state := rec.state,
         license_number := rec.license_number, status := rec.status,
         issue_date := rec.issue_date, expiry_date := rec.expiry_date,
         source_uri := some rec.source_uri,
         last_verified_at := some rec.last_verified_at }, ?_, rfl⟩⟩
    simp [insertRow, List.filter_append, hf, rowMatches]
  | cons target rest =>
    cases rest with
    | cons r2 rest2 =>
      rw [hf] at hlen
      simp at hlen
    | nil =>
      refine ⟨{ store with rows := store.rows.map (updateRow rec target) },
        by simp [upsert, hf], ⟨updateRow rec target target, ?_, ?_⟩⟩
      · show (store.rows.map (updateRow rec target)).filter
            (rowMatches rec.state rec.license_number) = _
        rw [filter_map_updateRow, hf]
        rfl
      · simp [updateRow]

/-- C9 (confirmed): two job-runner upserts sharing a `(state, licenseNumber)`
natural key but carrying different statuses leave exactly one stored row for
that key, and its status is the second call's status. -/
theorem run_job_upsert_second_status_wins (store : Store) (r1 r2 : Record)
    (hst : r1.state = r2.state) (hlic : r1.license_number = r2.license_number)
    (hstat : r1.status ≠ r2.status)
    (hlen : (store.rows.filter (rowMatches r1.state r1.license_number)).length ≤ 1) :
    ∃ s2, runJobRecords store [r1, r2] = some s2 ∧
      (s2.rows.filter (rowMatches r2.state r2.license_number)).length = 1 ∧
      ∀ row ∈ s2.rows.filter (rowMatches r2.state r2.license_number),
        row.status = r2.status := by
  obtain ⟨s1, hu1, row1, hf1, _⟩ := upsert_key_status store r1 hlen
  have hf1b : s1.rows.filter (rowMatches r2.state r2.license_number) = [row1] := by
    rw [← hst, ← hlic]
    exact hf1
  obtain ⟨s2, hu2, row2, hf2, hrow2⟩ := upsert_key_status s1 r2 (by rw [hf1b]; simp)
  refine ⟨s2, ?_, ?_, ?_⟩
  · simp [runJobRecords, hu1, hu2]
  · rw [hf2]
    rfl
  · intro row hrow
    rw [hf2] at hrow
    simp at hrow
    subst hrow
    exact hrow2

/-- Witness for C9: inserting Scenario A's record then upserting the same key
with status `"Inactive"` leaves one row with the second status. -/
theorem run_job_upsert_second_status_wins_witness :
    ∃ s2, runJobRecords store0 [recA, recB] = some s2 ∧
      (s2.rows.filter (rowMatches recB.state recB.license_number)).length = 1 ∧
      ∀ row ∈ s2.rows.filter (rowMatches recB.state recB.license_number),
        row.status = recB.status :=
  run_job_upsert_second_status_wins store0 recA recB rfl rfl (by decide) (by decide)

/-- An update leaves the surrogate id untouched. -/
theorem updateRow_id (rec : Record) (target r : Row) :
    (updateRow rec target r).id = r.id := by
  unfold updateRow
  split <;> rfl

/-- An update leaves the stored verification timestamp untouched. -/
theorem updateRow_last_verified (rec : Record) (target r : Row) :
    (updateRow rec target r).last_verified_at = r.last_verified_at := by
  unfold updateRow
  split <;> rfl

/-- An update leaves the state column untouched. -/
theorem updateRow_state (rec : Record) (target r : Row) :
    (updateRow rec target r).state = r.state := by
  unfold updateRow
  split <;> rfl

/-- An update leaves the license-number column untouched. -/
theorem updateRow_license (rec : Record) (target r : Row) :
    (updateRow rec target r).license_number = r.license_number := by
  unfold updateRow
  split <;> rfl

/-- C10 (confirmed): the update path of `run_ut_job` modifies only
`full_name`, `status`, `issue_date`, `expiry_date` and `source_uri` on the
matched row; every row's `id` and stored `last_verified_at` (and the key
columns) are unchanged, rows not matching the target id are untouched, and
the record's capture timestamp is not written. -/
theorem run_job_update_frame (store : Store) (rec : Record) (target : Row)
    (hf : store.rows.filter (rowMatches rec.state rec.license_number) = [target]) :
    ∃ s1, upsert store rec = some s1 ∧
      s1.nextId = store.nextId ∧
      s1.rows.map Row.id = store.rows.map Row.id ∧
      s1.rows.map Row.last_verified_at = store.rows.map Row.last_verified_at ∧
      s1.rows.map Row.state = store.rows.map Row.state ∧
      s1.rows.map Row.license_number = store.rows.map Row.license_number ∧
      (∀ r ∈ store.rows, r.id ≠ target.id → r ∈ s1.rows) ∧
      (∀ r ∈ store.rows, r.id = target.id →
        ({ r with
           full_name := rec.full_name
           status := rec.status
           issue_date := rec.issue_date
           expiry_date := rec.expiry_date
           source_uri := some rec.source_uri } : Row) ∈ s1.rows) := by
  refine ⟨{ store with rows := store.rows.map (updateRow rec target) },
    by simp [upsert, hf], rfl, ?_, ?_, ?_, ?_, ?_, ?_⟩
  · rw [List.map_map]
    exact List.map_congr_left fun r _ => updateRow_id rec target r
  · rw [List.map_map]
    exact List.map_congr_left fun r _ => updateRow_last_verified rec target r
  · rw [List.map_map]
    exact List.map_congr_left fun r _ => updateRow_state rec target r
  · rw [List.map_map]
    exact List.map_congr_left fun r _ => updateRow_license rec target r
  · intro r hr hne
    have hrow : updateRow rec target r = r := by
      unfold updateRow
      rw [if_neg hne]
    simpa [hrow] using List.mem_map_of_mem (updateRow rec target) hr
  · intro r hr heq
    have hrow : updateRow rec target r =
        { r with
          full_name := rec.full_name
          status := rec.status
          issue_date := rec.issue_date
          expiry_date := rec.expiry_date
          source_uri := some rec.source_uri } := by
      unfold updateRow
      rw [if_pos heq]
    simpa [hrow] using List.mem_map_of_mem (updateRow rec target) hr

/-- Witness for C10: updating `store1`'s single row by key keeps its id and
timestamp and rewrites the five mutable fields. -/
theorem run_job_update_frame_witness :
    ∃ s1, upsert store1 recB = some s1 ∧
      s1.nextId = store1.nextId ∧
      s1.rows.map Row.id = store1.rows.map Row.id ∧
      s1.rows.map Row.last_verified_at = store1.rows.map Row.last_verified_at ∧
      s1.rows.map Row.state = store1.rows.map Row.state ∧
      s1.rows.map Row.license_number = store1.rows.map Row.license_number ∧
      (∀ r ∈ store1.rows, r.id ≠ store1row.id → r ∈ s1.rows) ∧
      (∀ r ∈ store1.rows, r.id = store1row.id →
        ({ r with
           full_name := recB.full_name
           status := recB.status
           issue_date := recB.issue_date
           expiry_date := recB.expiry_date
           source_uri := some recB.source_uri } : Row) ∈ s1.rows) :=
  run_job_update_frame store1 recB store1row (by decide)

end SLV
